import Mathlib

/-!
# WeatherSentinel: verification of the record-store and controller contracts

Shallow embedding of `src/weather_tracking_system.py`.

Modelling conventions:

* SQLite `REAL` columns (temperature, wind speed) are modelled as `ℚ`;
  no arithmetic is ever performed on them, they are pass-through values.
* `timestamp DATETIME DEFAULT CURRENT_TIMESTAMP` has second resolution and
  compares chronologically; it is modelled as a `ℕ` clock value passed in
  explicitly (`now`).
* A Python call that can raise an uncaught exception is modelled with
  `Except String`; the `String` names the Python exception class.
  A call that catches its errors and returns normally is a total function.
* Ambient failure sources (sqlite3 I/O errors, file-system errors) are
  modelled as explicit inputs (`storageOk`, `snapOk`, `readFail`): they say
  which library error, if any, the underlying engine raises; the `try/except`
  blocks in the source then catch it or not, as the clause dictates.
* Python's `str.isdigit` and the regex `\d` are embedded through the Unicode
  tables of the CPython the program runs on: `\d` matches exactly the
  Numeric_Type=Decimal scalars (category Nd), while `isdigit` additionally
  accepts the Numeric_Type=Digit scalars (superscripts such as '²', circled
  digits, ...), so the source's guard is strictly weaker than `^\d{6}$`.
-/

deriving instance DecidableEq for Except

namespace WeatherSentinel

/-- One row of the `weather_records` table
(`id PK AUTOINCREMENT, pincode, location, temperature, humidity, description, timestamp`). -/
structure StoredRecord where
  id : ℕ
  pincode : String
  location : String
  temperature : ℚ
  humidity : ℤ
  description : String
  timestamp : ℕ
  deriving DecidableEq, Repr

/-- The SQLite database file: the `weather_records` table (rows in rowid /
insertion order) plus the AUTOINCREMENT counter, and whether
`CREATE TABLE IF NOT EXISTS` has run. -/
structure DB where
  schema : Bool
  nextId : ℕ
  records : List StoredRecord
  deriving DecidableEq, Repr

/-- A fresh database file: no schema yet, AUTOINCREMENT ids start at 1. -/
def DB.empty : DB := ⟨false, 1, []⟩

/-- `WeatherDatabase._create_tables`: `CREATE TABLE IF NOT EXISTS` — ensures the
schema exists and touches no rows. -/
def create_tables (db : DB) : DB := { db with schema := true }

/-- The JSON dict returned by the weather API, seen through the five key paths
the program reads (`name`, `main.temp`, `main.humidity`,
`weather[0].description`, `wind.speed`). `none` models a missing key
(or empty `weather` list): reading it raises `KeyError`/`IndexError`.
A value of this type stands for a truthy (non-empty) dict. -/
structure APIData where
  name : Option String
  main_temp : Option ℚ
  main_humidity : Option ℤ
  weather0_description : Option String
  wind_speed : Option ℚ
  deriving DecidableEq, Repr

/-- `WeatherDatabase.save_weather_data`.  Builds the parameter tuple by the
unguarded lookups `data["name"]`, `data["main"]["temp"]`,
`data["main"]["humidity"]`, `data["weather"][0]["description"]` — a missing
key raises `KeyError` (not an `sqlite3.Error`, hence uncaught) — then runs one
`INSERT`; `sqlite3.Error` is caught and converted to `False`.

Returns the database state after the call together with the call's outcome
(`.ok b` = normal return of `b`, `.error e` = exception `e` escaping). -/
def save_weather_data (db : DB) (pincode : String) (data : APIData) (now : ℕ)
    (storageOk : Bool) : DB × Except String Bool :=
  match data.name with
  | none => (db, .error "KeyError")
  | some name =>
    match data.main_temp with
    | none => (db, .error "KeyError")
    | some temp =>
      match data.main_humidity with
      | none => (db, .error "KeyError")
      | some hum =>
        match data.weather0_description with
        | none => (db, .error "KeyError")
        | some desc =>
          if storageOk then
            (⟨db.schema, db.nextId + 1,
              db.records ++ [⟨db.nextId, pincode, name, temp, hum, desc, now⟩]⟩,
             .ok true)
          else
            (db, .ok false)

/-- A row of the history result set: the `SELECT` projects only
`timestamp, temperature, humidity, description` (no id, pincode or location). -/
structure HistoryRow where
  timestamp : ℕ
  temperature : ℚ
  humidity : ℤ
  description : String
  deriving DecidableEq, Repr

/-- The column projection performed by the history `SELECT`. -/
def rowOf (r : StoredRecord) : HistoryRow :=
  ⟨r.timestamp, r.temperature, r.humidity, r.description⟩

/-- One step of a stable descending-by-timestamp insertion: `r` goes in front
of the first element with a strictly smaller timestamp, so rows with equal
timestamps keep their scan order. -/
def insertDesc (r : StoredRecord) : List StoredRecord → List StoredRecord
  | [] => [r]
  | s :: rest =>
    if s.timestamp < r.timestamp then r :: s :: rest else s :: insertDesc r rest

/-- `ORDER BY timestamp DESC` over a scan of the table in rowid order.
SQLite does not specify the relative order of rows with equal sort keys; the
model resolves ties by scan (insertion) order, which is what a stable sort of
the rowid-ordered scan produces.  Note the SQL requests no `id` tie-break. -/
def sortByTimestampDesc (l : List StoredRecord) : List StoredRecord :=
  l.foldl (fun acc r => insertDesc r acc) []

/-- The result set of the query in `get_weather_history`, before projection:
`WHERE pincode = ? ORDER BY timestamp DESC LIMIT 5` (the limit is the literal
5; the function takes no limit parameter). -/
def selectHistory (db : DB) (pincode : String) : List StoredRecord :=
  (sortByTimestampDesc (db.records.filter (fun r => r.pincode == pincode))).take 5

/-- The two places a read can fail inside `get_weather_history`, which the
`except sqlite3.Error` clause treats differently. -/
inductive ReadFailure where
  /-- `sqlite3.connect` raises an `sqlite3.Error`: caught, empty frame. -/
  | connectError : ReadFailure
  /-- a failure inside `pd.read_sql_query`: pandas re-raises it as
  `pandas.errors.DatabaseError`, an `OSError` subclass that
  `except sqlite3.Error` does NOT catch. -/
  | executionError : ReadFailure
  deriving DecidableEq, Repr

/-- The rows a healthy execution of the history `SELECT` produces. -/
def historyRows (db : DB) (pincode : String) : List HistoryRow :=
  (selectHistory db pincode).map rowOf

/-- `WeatherDatabase.get_weather_history`: a healthy read returns the result
set; a connect-time `sqlite3.Error` is caught and converted to an empty
frame; a failure during `pd.read_sql_query` surfaces as
`pandas.errors.DatabaseError` and escapes to the caller uncaught. -/
def get_weather_history (db : DB) (pincode : String)
    (fail : Option ReadFailure) : Except String (List HistoryRow) :=
  match fail with
  | none => .ok (historyRows db pincode)
  | some .connectError => .ok []
  | some .executionError => .error "pandas.errors.DatabaseError"

/-- Inclusive Unicode-scalar ranges of the characters Python's `re` pattern
`\d` matches in a `str` (the Numeric_Type=Decimal scalars, category Nd);
taken from the `unicodedata` tables of the CPython the program runs on. -/
def regexDigitRanges : List (ℕ × ℕ) :=
  [(48, 57), (1632, 1641), (1776, 1785), (1984, 1993), (2406, 2415),
   (2534, 2543), (2662, 2671), (2790, 2799), (2918, 2927), (3046, 3055),
   (3174, 3183), (3302, 3311), (3430, 3439), (3558, 3567), (3664, 3673),
   (3792, 3801), (3872, 3881), (4160, 4169), (4240, 4249), (6112, 6121),
   (6160, 6169), (6470, 6479), (6608, 6617), (6784, 6793), (6800, 6809),
   (6992, 7001), (7088, 7097), (7232, 7241), (7248, 7257), (42528, 42537),
   (43216, 43225), (43264, 43273), (43472, 43481), (43504, 43513),
   (43600, 43609), (44016, 44025), (65296, 65305), (66720, 66729),
   (68912, 68921), (69734, 69743), (69872, 69881), (69942, 69951),
   (70096, 70105), (70384, 70393), (70736, 70745), (70864, 70873),
   (71248, 71257), (71360, 71369), (71472, 71481), (71904, 71913),
   (72016, 72025), (72784, 72793), (73040, 73049), (73120, 73129),
   (92768, 92777), (92864, 92873), (93008, 93017), (120782, 120831),
   (123200, 123209), (123632, 123641), (125264, 125273), (130032, 130041)]

/-- Inclusive Unicode-scalar ranges of the characters `str.isdigit` accepts
BEYOND `\d`: the Numeric_Type=Digit scalars, e.g. the superscript '²'
(U+00B2); same provenance as `regexDigitRanges`. -/
def digitNotDecimalRanges : List (ℕ × ℕ) :=
  [(178, 179), (185, 185), (4969, 4977), (6618, 6618), (8304, 8304),
   (8308, 8313), (8320, 8329), (9312, 9320), (9332, 9340), (9352, 9360),
   (9450, 9450), (9461, 9469), (9471, 9471), (10102, 10110), (10112, 10120),
   (10122, 10130), (68160, 68163), (69216, 69224), (69714, 69722),
   (127232, 127242)]

def inRanges (rs : List (ℕ × ℕ)) (c : Char) : Bool :=
  rs.any (fun p => p.1 ≤ c.toNat && c.toNat ≤ p.2)

/-- A character matched by Python's `\d`. -/
def isRegexDigitChar (c : Char) : Bool := inRanges regexDigitRanges c

/-- A character accepted by Python's `str.isdigit`. -/
def pyIsDigitChar (c : Char) : Bool :=
  inRanges regexDigitRanges c || inRanges digitNotDecimalRanges c

/-- Python `str.isdigit()`: non-empty, and every character a digit
character. -/
def pyIsDigitStr (p : String) : Bool :=
  !p.isEmpty && p.toList.all pyIsDigitChar

/-- The source's guard `pincode.isdigit() and len(pincode) == 6`.  Strictly
weaker than the spec's `^\d{6}$`: `isdigit` also accepts Numeric_Type=Digit
characters that `\d` rejects. -/
def validPincode (p : String) : Bool :=
  pyIsDigitStr p && p.length == 6

/-- The spec's check `^\d{6}$`. -/
def matchesSixDigitRegex (p : String) : Bool :=
  p.toList.all isRegexDigitChar && p.length == 6

/-- Observable state of the running application: the database plus the number
of snapshot files written and of network fetches performed. -/
structure World where
  db : DB
  snapshots : ℕ
  apiCalls : ℕ
  deriving DecidableEq, Repr

/-- All five key paths that `display_weather` reads are present. -/
def dataComplete (d : APIData) : Bool :=
  d.name.isSome && d.main_temp.isSome && d.main_humidity.isSome &&
    d.weather0_description.isSome && d.wind_speed.isSome

/-- One iteration of the `while True` loop in `WeatherApp.run`.

Inputs model the environment of the iteration: the menu `choice` and
`pincode` typed by the user, `fetch` the outcome of `fetch_weather`
(`none` = non-200 status or `requests.RequestException`, already converted to
`None` inside `fetch_weather`; also covers a falsy `{}` body skipped by
`if data:`), `now` the clock, and the failure switches.

`.ok w` = the iteration completes and the loop shows the menu again (or, for
choice `"3"`, breaks cleanly); `.error e` = an uncaught exception `e` escapes
`run` and the process crashes. -/
def run_step (w : World) (choice pincode : String) (fetch : Option APIData)
    (now : ℕ) (storageOk snapOk : Bool) (readFail : Option ReadFailure) :
    Except String World :=
  if choice = "1" then
    if validPincode pincode then
      -- the network call happens exactly here
      let w1 : World := { w with apiCalls := w.apiCalls + 1 }
      match fetch with
      | none => .ok w1          -- fetch_weather returned None; `if data:` skips
      | some data =>
        if dataComplete data then
          -- display_weather prints; save_to_json catches IOError
          let w2 : World :=
            if snapOk then { w1 with snapshots := w1.snapshots + 1 } else w1
          let res := save_weather_data w2.db pincode data now storageOk
          match res.2 with
          | .ok _ => .ok { w2 with db := res.1 }   -- True also prints "saved"
          | .error e => .error e
        else
          -- an unguarded lookup in display_weather raises
          .error "KeyError"
    else
      .ok w                     -- "Error: Please enter a valid 6-digit pincode"
  else if choice = "2" then
    -- display_history only prints; a pandas.errors.DatabaseError raised
    -- inside get_weather_history escapes run
    match get_weather_history w.db pincode readFail with
    | .ok _ => .ok w
    | .error e => .error e
  else
    .ok w                       -- "3" breaks, anything else redisplays the menu

/-! ## Properties of the sort model -/

/-- `b` is no more recent than `a`: the order of the result set. -/
def tsDescRel (a b : StoredRecord) : Prop := b.timestamp ≤ a.timestamp

instance : DecidableRel tsDescRel := fun a b => by
  unfold tsDescRel; infer_instance

theorem mem_insertDesc {a r : StoredRecord} {l : List StoredRecord} :
    a ∈ insertDesc r l ↔ a = r ∨ a ∈ l := by
  induction l with
  | nil => simp [insertDesc]
  | cons s rest ih =>
    unfold insertDesc
    by_cases h : s.timestamp < r.timestamp
    · simp only [if_pos h, List.mem_cons]
    · simp only [if_neg h, List.mem_cons, ih]
      tauto

theorem mem_foldl_insertDesc (l acc : List StoredRecord) (a : StoredRecord) :
    a ∈ l.foldl (fun acc r => insertDesc r acc) acc ↔ a ∈ acc ∨ a ∈ l := by
  induction l generalizing acc with
  | nil => simp
  | cons s rest ih =>
    simp only [List.foldl_cons, ih, mem_insertDesc, List.mem_cons]
    tauto

theorem mem_sortByTimestampDesc {a : StoredRecord} {l : List StoredRecord} :
    a ∈ sortByTimestampDesc l ↔ a ∈ l := by
  simpa [sortByTimestampDesc] using mem_foldl_insertDesc l [] a

theorem pairwise_insertDesc (r : StoredRecord) {l : List StoredRecord}
    (h : l.Pairwise tsDescRel) : (insertDesc r l).Pairwise tsDescRel := by
  induction l with
  | nil => simp [insertDesc]
  | cons s rest ih =>
    rw [List.pairwise_cons] at h
    obtain ⟨hs, hrest⟩ := h
    unfold insertDesc
    by_cases hc : s.timestamp < r.timestamp
    · rw [if_pos hc]
      refine List.Pairwise.cons ?_ (List.Pairwise.cons hs hrest)
      intro x hx
      rcases List.mem_cons.mp hx with rfl | hx'
      · exact le_of_lt hc
      · exact le_trans (hs x hx') (le_of_lt hc)
    · rw [if_neg hc]
      refine List.Pairwise.cons ?_ (ih hrest)
      intro x hx
      rcases mem_insertDesc.mp hx with rfl | hx'
      · exact le_of_not_lt hc
      · exact hs x hx'

theorem pairwise_foldl_insertDesc (l : List StoredRecord)
    (acc : List StoredRecord) (h : acc.Pairwise tsDescRel) :
    (l.foldl (fun acc r => insertDesc r acc) acc).Pairwise tsDescRel := by
  induction l generalizing acc with
  | nil => exact h
  | cons s rest ih => exact ih _ (pairwise_insertDesc s h)

theorem pairwise_sortByTimestampDesc (l : List StoredRecord) :
    (sortByTimestampDesc l).Pairwise tsDescRel :=
  pairwise_foldl_insertDesc l [] List.Pairwise.nil

theorem insertDesc_eq_cons {r : StoredRecord} {l : List StoredRecord}
    (h : ∀ s ∈ l, s.timestamp < r.timestamp) : insertDesc r l = r :: l := by
  cases l with
  | nil => rfl
  | cons s rest =>
    unfold insertDesc
    rw [if_pos (h s (List.mem_cons_self s rest))]

theorem sortByTimestampDesc_append_singleton (l : List StoredRecord)
    (r : StoredRecord) :
    sortByTimestampDesc (l ++ [r]) = insertDesc r (sortByTimestampDesc l) := by
  simp [sortByTimestampDesc, List.foldl_append]

theorem mem_selectHistory {db : DB} {pincode : String} {r : StoredRecord}
    (h : r ∈ selectHistory db pincode) :
    r ∈ db.records ∧ (r.pincode == pincode) = true := by
  have h1 : r ∈ sortByTimestampDesc
      (db.records.filter (fun r => r.pincode == pincode)) :=
    List.mem_of_mem_take h
  have h2 := mem_sortByTimestampDesc.mp h1
  exact List.mem_filter.mp h2

/-! ## Concrete fixtures -/

def recA : StoredRecord := ⟨1, "560001", "Bengaluru", 20, 50, "mist", 100⟩

def recB : StoredRecord := ⟨2, "560001", "Bengaluru", 21, 55, "haze", 100⟩

/-- Two rows for the same pincode with equal timestamps (inserted in the same
second), ids 1 and 2. -/
def dbTie : DB := ⟨true, 3, [recA, recB]⟩

/-- A database holding one record for a different pincode. -/
def dbOther : DB := ⟨true, 2, [⟨1, "110011", "Delhi", 30, 40, "haze", 100⟩]⟩

def obsFirst : APIData := ⟨some "Bengaluru", some 20, some 50, some "mist", some 3⟩

def obsSecond : APIData := ⟨some "Bengaluru", some 21, some 55, some "haze", some 3⟩

/-- Two successive saves for "560001" landing in the same timestamp second. -/
def dbSameSecond : DB :=
  (save_weather_data
    (save_weather_data (create_tables DB.empty) "560001" obsFirst 100 true).1
    "560001" obsSecond 100 true).1

/-- The temperature 24.5 of the spec's example, as a rational in lowest
terms (`49/2`). -/
def temp245 : ℚ := ⟨49, 2, by decide, by decide⟩

def obsBlr : APIData :=
  ⟨some "Bengaluru", some temp245, some 60, some "clear sky", some 3⟩

def obsMum : APIData :=
  ⟨some "Mumbai", some temp245, some 60, some "clear sky", some 3⟩

def dbBlr : DB := (save_weather_data (create_tables DB.empty) "560001" obsBlr 100 true).1

def dbMum : DB := (save_weather_data (create_tables DB.empty) "560001" obsMum 100 true).1

/-! ## Claim C3 -/

/-- C3 (amended): `get_weather_history` returns at most 5 rows (the limit is
the hard-coded literal 5, not a parameter), every selected record's pincode
equals the queried string exactly, and the rows are ordered by timestamp
descending.  The claimed id-descending tie-break does not hold (see the
counterexample): the query requests no tie-break, and ties surface in scan
(id-ascending) order. -/
theorem C3_query_recent_bounded_matching_sorted (db : DB) (pincode : String)
    (fail : Option ReadFailure) :
    (selectHistory db pincode).all (fun r => r.pincode == pincode) = true
    ∧ ∀ rows, get_weather_history db pincode fail = Except.ok rows →
        rows.length ≤ 5
        ∧ rows.Pairwise (fun a b => b.timestamp ≤ a.timestamp) := by
  constructor
  · rw [List.all_eq_true]
    intro r hr
    exact (mem_selectHistory hr).2
  · intro rows hrows
    cases fail with
    | none =>
      simp only [get_weather_history, Except.ok.injEq] at hrows
      subst hrows
      constructor
      · show ((selectHistory db pincode).map rowOf).length ≤ 5
        rw [List.length_map]
        exact List.length_take_le 5 _
      · show ((selectHistory db pincode).map rowOf).Pairwise
          (fun a b => b.timestamp ≤ a.timestamp)
        rw [List.pairwise_map]
        exact List.Pairwise.sublist (List.take_sublist 5 _)
          (pairwise_sortByTimestampDesc _)
    | some f =>
      cases f with
      | connectError =>
        simp only [get_weather_history, Except.ok.injEq] at hrows
        subst hrows
        simp
      | executionError => simp [get_weather_history] at hrows

/-- C3 witness: the bound, match and order facts exercised on `dbTie` with a
healthy read. -/
theorem C3_query_recent_bounded_matching_sorted_witness :
    (selectHistory dbTie "560001").all (fun r => r.pincode == "560001") = true
    ∧ (historyRows dbTie "560001").length ≤ 5
    ∧ (historyRows dbTie "560001").Pairwise
        (fun a b => b.timestamp ≤ a.timestamp) :=
  ⟨(C3_query_recent_bounded_matching_sorted dbTie "560001" none).1,
   ((C3_query_recent_bounded_matching_sorted dbTie "560001" none).2
      (historyRows dbTie "560001") rfl).1,
   ((C3_query_recent_bounded_matching_sorted dbTie "560001" none).2
      (historyRows dbTie "560001") rfl).2⟩

/-- C3 counterexample: two records for "560001" share a timestamp; the query
returns them in id-ascending scan order, not the claimed id-descending
order. -/
theorem C3_counterexample_tie_order :
    get_weather_history dbTie "560001" none = Except.ok [rowOf recA, rowOf recB]
    ∧ get_weather_history dbTie "560001" none
        ≠ Except.ok [rowOf recB, rowOf recA] := by
  decide

/-! ## Claim C4 -/

/-- C4 (amended): if the appended record's insert-time timestamp is strictly
greater than that of every already-stored record for the same pincode, the
query returns the just-appended record first.  (With equal timestamps the
earlier insert comes first — see the counterexample.) -/
theorem C4_append_query_head (db : DB) (pincode name desc : String)
    (temp : ℚ) (hum : ℤ) (wind : Option ℚ) (now : ℕ)
    (hfresh : ∀ r ∈ db.records, r.pincode = pincode → r.timestamp < now) :
    ∃ rest, get_weather_history
        (save_weather_data db pincode
          ⟨some name, some temp, some hum, some desc, wind⟩ now true).1
        pincode none
      = Except.ok (rowOf ⟨db.nextId, pincode, name, temp, hum, desc, now⟩
          :: rest) := by
  have hfilter : (db.records ++ [(⟨db.nextId, pincode, name, temp, hum, desc, now⟩ : StoredRecord)]).filter
        (fun r => r.pincode == pincode)
      = db.records.filter (fun r => r.pincode == pincode)
          ++ [⟨db.nextId, pincode, name, temp, hum, desc, now⟩] := by
    rw [List.filter_append]
    simp
  have hall : ∀ s ∈ sortByTimestampDesc
      (db.records.filter (fun r => r.pincode == pincode)),
      s.timestamp < (⟨db.nextId, pincode, name, temp, hum, desc, now⟩ : StoredRecord).timestamp := by
    intro s hs
    have hs' := List.mem_filter.mp (mem_sortByTimestampDesc.mp hs)
    exact hfresh s hs'.1 (by simpa using hs'.2)
  have key : historyRows
        (save_weather_data db pincode
          ⟨some name, some temp, some hum, some desc, wind⟩ now true).1
        pincode
      = (((⟨db.nextId, pincode, name, temp, hum, desc, now⟩ : StoredRecord) ::
          sortByTimestampDesc
            (db.records.filter (fun r => r.pincode == pincode))).take 5).map
          rowOf := by
    show (((sortByTimestampDesc
        ((db.records ++ [(⟨db.nextId, pincode, name, temp, hum, desc, now⟩ : StoredRecord)]).filter
          (fun r => r.pincode == pincode))).take 5).map rowOf)
      = _
    rw [hfilter, sortByTimestampDesc_append_singleton, insertDesc_eq_cons hall]
  refine ⟨((sortByTimestampDesc
      (db.records.filter (fun r => r.pincode == pincode))).take 4).map rowOf, ?_⟩
  show Except.ok (historyRows
      (save_weather_data db pincode
        ⟨some name, some temp, some hum, some desc, wind⟩ now true).1
      pincode) = _
  rw [key, show (5 : ℕ) = 4 + 1 from rfl, List.take_succ_cons, List.map_cons]

/-- C4 witness: appending at a strictly later second than both rows of
`dbTie` puts the new record first. -/
theorem C4_append_query_head_witness :
    ∃ rest, get_weather_history
        (save_weather_data dbTie "560001"
          ⟨some "Bengaluru", some 22, some 60, some "clear sky", some 3⟩
          200 true).1
        "560001" none
      = Except.ok (rowOf ⟨3, "560001", "Bengaluru", 22, 60, "clear sky", 200⟩
          :: rest) :=
  C4_append_query_head dbTie "560001" "Bengaluru" "clear sky" 22 60 (some 3)
    200 (by decide)

/-- C4 counterexample: two successive appends whose `CURRENT_TIMESTAMP`
values fall in the same second; the query returns the FIRST insert's row
first (and the two rows differ), so taking one row yields the earlier
insert, not the later one the claim promises. -/
theorem C4_counterexample_same_second :
    get_weather_history dbSameSecond "560001" none
      = Except.ok [⟨100, 20, 50, "mist"⟩, ⟨100, 21, 55, "haze"⟩]
    ∧ (⟨100, 20, 50, "mist"⟩ : HistoryRow) ≠ ⟨100, 21, 55, "haze"⟩ := by
  decide

/-! ## Claim C5 -/

/-- C5 counterexample: the history `SELECT` projects only
`timestamp, temperature, humidity, description`, so the returned record does
NOT carry the location — two stores differing only in the stored location
produce identical query results. -/
theorem C5_counterexample_location_dropped :
    dbBlr ≠ dbMum
    ∧ get_weather_history dbBlr "560001" none
        = get_weather_history dbMum "560001" none := by
  decide

/-- C5 (amended): appending the Bengaluru observation into an empty store and
querying "560001" yields exactly one row with the insert-time timestamp
(non-null), temperature 24.5, humidity 60 and description "clear sky"; the
location is stored but not among the projected columns. -/
theorem C5_bengaluru_roundtrip :
    get_weather_history dbBlr "560001" none
      = Except.ok [⟨100, temp245, 60, "clear sky"⟩] := by
  decide

/-! ## Claim C6 -/

/-- C6 (amended): when no stored record matches the pincode, a healthy read
returns the empty sequence, and a connect-time `sqlite3.Error` is caught and
yields the empty sequence on EVERY store; but an execution-time failure
inside `pd.read_sql_query` is re-raised as `pandas.errors.DatabaseError`,
which `except sqlite3.Error` does not catch (see the counterexample). -/
theorem C6_query_empty_on_no_match_or_connect_failure (db : DB)
    (pincode : String)
    (h : db.records.all (fun r => !(r.pincode == pincode)) = true) :
    get_weather_history db pincode none = Except.ok []
    ∧ ∀ db' : DB, get_weather_history db' pincode
        (some ReadFailure.connectError) = Except.ok [] := by
  constructor
  · have hfil : db.records.filter (fun r => r.pincode == pincode) = [] := by
      rw [List.filter_eq_nil_iff]
      intro a ha
      have := List.all_eq_true.mp h a ha
      simpa using this
    show Except.ok (((sortByTimestampDesc
        (db.records.filter fun r => r.pincode == pincode)).take 5).map rowOf)
      = Except.ok ([] : List HistoryRow)
    rw [hfil]
    rfl
  · intro db'
    rfl

/-- C6 witness: a store holding only a "110011" record answers "560001" with
the empty sequence, and a connect failure on the populated `dbTie` is caught
and also yields the empty sequence. -/
theorem C6_query_empty_witness :
    get_weather_history dbOther "560001" none = Except.ok []
    ∧ get_weather_history dbTie "560001" (some ReadFailure.connectError)
        = Except.ok [] :=
  ⟨(C6_query_empty_on_no_match_or_connect_failure dbOther "560001"
      (by decide)).1,
   (C6_query_empty_on_no_match_or_connect_failure dbOther "560001"
      (by decide)).2 dbTie⟩

/-- C6 counterexample: a read failure during `pd.read_sql_query` on a store
WITH matching history raises `pandas.errors.DatabaseError` to the caller —
the operation does not return an empty sequence there, refuting "never
raises". -/
theorem C6_counterexample_execution_failure_raises :
    get_weather_history dbTie "560001" (some ReadFailure.executionError)
      = Except.error "pandas.errors.DatabaseError" := by
  decide

/-! ## Properties of save_weather_data -/

/-- When all the key paths read by `display_weather` are present,
`save_weather_data` returns normally (with `true` or `false`), never
raising. -/
theorem save_complete_ok (db : DB) (p : String) (d : APIData) (now : ℕ)
    (sOk : Bool) (h : dataComplete d = true) :
    ∃ b : Bool, (save_weather_data db p d now sOk).2 = Except.ok b := by
  rcases d with ⟨n, t, hm, ds, w⟩
  cases n with
  | none => simp [dataComplete] at h
  | some n =>
    cases t with
    | none => simp [dataComplete] at h
    | some t =>
      cases hm with
      | none => simp [dataComplete] at h
      | some hm =>
        cases ds with
        | none => simp [dataComplete] at h
        | some ds =>
          cases sOk with
          | true => exact ⟨true, rfl⟩
          | false => exact ⟨false, rfl⟩

/-- `save_weather_data` either changes nothing and does not report success,
or performs exactly the one insert with the fresh AUTOINCREMENT id and
reports success. -/
theorem save_characterization (db : DB) (p : String) (d : APIData) (now : ℕ)
    (sOk : Bool) :
    ((save_weather_data db p d now sOk).1 = db
      ∧ (save_weather_data db p d now sOk).2 ≠ Except.ok true)
    ∨ ∃ nm t hm ds, (save_weather_data db p d now sOk).1
        = ⟨db.schema, db.nextId + 1,
            db.records ++ [⟨db.nextId, p, nm, t, hm, ds, now⟩]⟩
      ∧ (save_weather_data db p d now sOk).2 = Except.ok true := by
  rcases d with ⟨n, t, hm, ds, w⟩
  cases n with
  | none => exact Or.inl ⟨rfl, by simp [save_weather_data]⟩
  | some n =>
    cases t with
    | none => exact Or.inl ⟨rfl, by simp [save_weather_data]⟩
    | some t =>
      cases hm with
      | none => exact Or.inl ⟨rfl, by simp [save_weather_data]⟩
      | some hm =>
        cases ds with
        | none => exact Or.inl ⟨rfl, by simp [save_weather_data]⟩
        | some ds =>
          cases sOk with
          | true => exact Or.inr ⟨n, t, hm, ds, rfl, rfl⟩
          | false => exact Or.inl ⟨rfl, by simp [save_weather_data]⟩

/-! ## Claim C1 -/

/-- C1 (amended): if the observation dict lacks any of the `name`,
`main.temp`, `main.humidity` or `weather[0].description` key paths,
`save_weather_data` raises `KeyError` to its caller (leaving the store
untouched); only an `sqlite3.Error` is converted to the `False` failure
return. -/
theorem C1_missing_field_raises (db : DB) (pincode : String) (data : APIData)
    (now : ℕ) (sOk : Bool)
    (h : data.name = none ∨ data.main_temp = none ∨ data.main_humidity = none
        ∨ data.weather0_description = none) :
    save_weather_data db pincode data now sOk = (db, Except.error "KeyError") := by
  rcases data with ⟨n, t, hm, ds, w⟩
  cases n <;> cases t <;> cases hm <;> cases ds <;>
    simp_all [save_weather_data]

/-- An API dict lacking the `name` key (all other read paths present). -/
def obsNoName : APIData := ⟨none, some 20, some 50, some "mist", some 3⟩

/-- C1 witness: the missing-`name` observation makes the save raise. -/
theorem C1_missing_field_raises_witness :
    save_weather_data DB.empty "560001" obsNoName 100 true
      = (DB.empty, Except.error "KeyError") :=
  C1_missing_field_raises DB.empty "560001" obsNoName 100 true (Or.inl rfl)

/-- C1 counterexample: on a missing field the operation raises `KeyError` —
it does not return the failure boolean (nor success). -/
theorem C1_counterexample_raises_not_failure :
    (save_weather_data DB.empty "560001" obsNoName 100 true).2
        = Except.error "KeyError"
    ∧ (save_weather_data DB.empty "560001" obsNoName 100 true).2
        ≠ Except.ok false
    ∧ (save_weather_data DB.empty "560001" obsNoName 100 true).2
        ≠ Except.ok true := by
  decide

/-! ## Claim C2 -/

/-- Reduction of the fetch branch when the response dict carries all five
key paths: the iteration always ends in `Except.ok`. -/
theorem run_step_eq_fetch_complete (w : World) (pincode : String) (d : APIData)
    (now : ℕ) (sOk snOk : Bool) (readFail : Option ReadFailure)
    (hv : validPincode pincode = true) (hd : dataComplete d = true) :
    run_step w "1" pincode (some d) now sOk snOk readFail
      = Except.ok
          { db := (save_weather_data w.db pincode d now sOk).1,
            snapshots := if snOk then w.snapshots + 1 else w.snapshots,
            apiCalls := w.apiCalls + 1 } := by
  obtain ⟨b, hb⟩ := save_complete_ok w.db pincode d now sOk hd
  cases snOk with
  | true => simp [run_step, hv, hd, hb]
  | false => simp [run_step, hv, hd, hb]

/-- C2 (amended): the loop survives a network failure (`fetch = none`), a
guard-rejected pincode, a complete-data fetch regardless of snapshot and
storage-write failures, a connect-time read failure, and every other menu
choice; its two crash sources are a truthy API response missing one of the
five read key paths (`KeyError`) and an execution-time read failure
(`pandas.errors.DatabaseError` escaping `except sqlite3.Error`) — see the
counterexample. -/
theorem C2_run_survives_handled_failures (w : World) (choice pincode : String)
    (fetch : Option APIData) (now : ℕ) (sOk snOk : Bool)
    (readFail : Option ReadFailure)
    (h1 : choice = "1" → fetch = none ∨ validPincode pincode = false
        ∨ ∀ d, fetch = some d → dataComplete d = true)
    (h2 : choice = "2" → readFail ≠ some ReadFailure.executionError) :
    ∃ w', run_step w choice pincode fetch now sOk snOk readFail
      = Except.ok w' := by
  by_cases hc : choice = "1"
  · subst hc
    cases hv : validPincode pincode with
    | false => exact ⟨w, by simp [run_step, hv]⟩
    | true =>
      cases fetch with
      | none =>
        exact ⟨{ w with apiCalls := w.apiCalls + 1 }, by simp [run_step, hv]⟩
      | some d =>
        have hd : dataComplete d = true := by
          rcases h1 rfl with h | h | h
          · exact absurd h (by simp)
          · rw [hv] at h; exact absurd h (by simp)
          · exact h d rfl
        exact ⟨_,
          run_step_eq_fetch_complete w pincode d now sOk snOk readFail hv hd⟩
  · by_cases hc2 : choice = "2"
    · subst hc2
      cases readFail with
      | none => exact ⟨w, by simp [run_step, get_weather_history]⟩
      | some f =>
        cases f with
        | connectError =>
          exact ⟨w, by simp [run_step, get_weather_history]⟩
        | executionError => exact absurd rfl (h2 rfl)
    · exact ⟨w, by simp [run_step, hc, hc2]⟩

/-- C2 witness: a storage write failure plus a snapshot failure still leave
the loop alive on a well-formed fetch. -/
theorem C2_run_survives_witness :
    ∃ w', run_step ⟨DB.empty, 0, 0⟩ "1" "560001" (some obsFirst) 100
        false false none = Except.ok w' :=
  C2_run_survives_handled_failures ⟨DB.empty, 0, 0⟩ "1" "560001"
    (some obsFirst) 100 false false none
    (fun _ => Or.inr (Or.inr (fun d hd => by cases hd; decide)))
    (fun h => absurd h (by decide))

/-- A truthy API response with every key except `wind.speed`. -/
def obsNoWind : APIData := ⟨some "Bengaluru", some 20, some 50, some "clear sky", none⟩

/-- C2 counterexample: a 200 response missing `wind.speed` makes
`display_weather`'s unguarded lookup raise `KeyError`, and an execution-time
read failure in the history branch raises `pandas.errors.DatabaseError`;
both escape `run` and crash the loop. -/
theorem C2_counterexample_uncaught_crashes :
    run_step ⟨DB.empty, 0, 0⟩ "1" "560001" (some obsNoWind) 100 true true none
      = Except.error "KeyError"
    ∧ run_step ⟨dbTie, 0, 0⟩ "2" "560001" none 100 true true
        (some ReadFailure.executionError)
      = Except.error "pandas.errors.DatabaseError" := by
  decide

/-! ## Claim C7 -/

/-- C7 (amended): every pincode rejected by the code's guard
(`pincode.isdigit() and len(pincode) == 6`) short-circuits the fetch branch:
the step returns to the menu with the world completely unchanged — in
particular `apiCalls` does not grow, so the fetch path is not invoked.  The
guard is strictly weaker than the spec's `^\d{6}$`: Numeric_Type=Digit
characters such as '²' pass `isdigit` while failing `\d`, and for such
strings the fetch path IS invoked (see the counterexample). -/
theorem C7_guard_rejected_no_fetch (w : World) (pincode : String)
    (fetch : Option APIData) (now : ℕ) (sOk snOk : Bool)
    (readFail : Option ReadFailure)
    (h : validPincode pincode = false) :
    run_step w "1" pincode fetch now sOk snOk readFail = Except.ok w := by
  simp [run_step, h]

/-- C7 witness: the 5-character pincode "12345" is rejected with no fetch. -/
theorem C7_guard_rejected_no_fetch_witness :
    run_step ⟨DB.empty, 0, 0⟩ "1" "12345" none 100 true true none
      = Except.ok ⟨DB.empty, 0, 0⟩ :=
  C7_guard_rejected_no_fetch ⟨DB.empty, 0, 0⟩ "12345" none 100 true true none
    (by decide)

/-- C7 counterexample: "²²²²²²" does not match `^\d{6}$`, yet it passes the
code's `isdigit`-based guard and the fetch path runs for it — the
network-call counter grows from 0 to 1 — refuting "the fetch path is never
invoked" for regex-rejected inputs. -/
theorem C7_counterexample_superscript_pincode :
    matchesSixDigitRegex "²²²²²²" = false
    ∧ validPincode "²²²²²²" = true
    ∧ run_step ⟨DB.empty, 0, 0⟩ "1" "²²²²²²" none 100 true true none
        = Except.ok ⟨DB.empty, 0, 1⟩ := by
  decide

/-! ## Claim C8 -/

/-- C8: when `fetch_weather` yields no data (non-200 status or request
exception, both converted to `None` in the source), the iteration completes
normally and neither a snapshot file is written nor a record inserted. -/
theorem C8_fetch_failure_no_persistence (w : World) (pincode : String)
    (now : ℕ) (sOk snOk : Bool) (readFail : Option ReadFailure) :
    ∃ w', run_step w "1" pincode none now sOk snOk readFail = Except.ok w'
      ∧ w'.db = w.db ∧ w'.snapshots = w.snapshots := by
  cases hv : validPincode pincode with
  | true =>
    exact ⟨{ w with apiCalls := w.apiCalls + 1 }, by simp [run_step, hv],
      rfl, rfl⟩
  | false => exact ⟨w, by simp [run_step, hv], rfl, rfl⟩

/-! ## Claim C9 -/

/-- The append-only contract at one input: schema creation touches no rows,
the history query only reads existing rows, and a save either appends nothing
or appends exactly records carrying the fresh id `db.nextId`, never touching
or re-using the ids already present. -/
def AppendOnly (db : DB) (pincode : String) (data : APIData) (now : ℕ)
    (sOk : Bool) : Prop :=
  (create_tables db).records = db.records
  ∧ (∀ r ∈ selectHistory db pincode, r ∈ db.records)
  ∧ ∃ added, (save_weather_data db pincode data now sOk).1.records
        = db.records ++ added
      ∧ (∀ r ∈ added, r.id = db.nextId)
      ∧ (∀ r ∈ added, ∀ s ∈ db.records, s.id ≠ r.id)
      ∧ (∀ r ∈ (save_weather_data db pincode data now sOk).1.records,
          r.id < (save_weather_data db pincode data now sOk).1.nextId)

/-- C9: under the AUTOINCREMENT invariant (every stored id is below the
counter), every operation preserves previously stored records unchanged, a
save only ever appends, the id it assigns is fresh, and the invariant is
maintained. -/
theorem C9_store_append_only (db : DB) (pincode : String) (data : APIData)
    (now : ℕ) (sOk : Bool)
    (hwf : ∀ r ∈ db.records, r.id < db.nextId) :
    AppendOnly db pincode data now sOk := by
  refine ⟨rfl, fun r hr => (mem_selectHistory hr).1, ?_⟩
  rcases save_characterization db pincode data now sOk with
    ⟨h1, _⟩ | ⟨nm, t, hm, ds, h1, _⟩
  · refine ⟨[], by rw [h1, List.append_nil], by simp, by simp, ?_⟩
    rw [h1]
    exact hwf
  · refine ⟨[⟨db.nextId, pincode, nm, t, hm, ds, now⟩], by rw [h1], ?_, ?_, ?_⟩
    · intro r hr
      rw [List.mem_singleton] at hr
      rw [hr]
    · intro r hr s hs
      rw [List.mem_singleton] at hr
      rw [hr]
      exact Nat.ne_of_lt (hwf s hs)
    · intro r hr
      rw [h1] at hr ⊢
      rcases List.mem_append.mp hr with hr' | hr'
      · exact lt_trans (hwf r hr') (Nat.lt_succ_self _)
      · rw [List.mem_singleton] at hr'
        rw [hr']
        exact Nat.lt_succ_self _

/-- C9 witness: the invariant holds for `dbOther` and a concrete save. -/
theorem C9_store_append_only_witness :
    AppendOnly dbOther "560001" obsFirst 200 true :=
  C9_store_append_only dbOther "560001" obsFirst 200 true (by decide)

/-! ## Claim C10 -/

/-- C10: `save_weather_data` is atomic — either it reports success having
appended exactly one record, or (storage error, or the exception path) it
leaves the store exactly as it was and does not report success. -/
theorem C10_save_atomic (db : DB) (pincode : String) (data : APIData)
    (now : ℕ) (sOk : Bool) :
    (∃ r, (save_weather_data db pincode data now sOk).2 = Except.ok true
        ∧ (save_weather_data db pincode data now sOk).1.records
            = db.records ++ [r])
    ∨ ((save_weather_data db pincode data now sOk).1 = db
        ∧ (save_weather_data db pincode data now sOk).2 ≠ Except.ok true) := by
  rcases save_characterization db pincode data now sOk with
    ⟨h1, h2⟩ | ⟨nm, t, hm, ds, h1, h2⟩
  · exact Or.inr ⟨h1, h2⟩
  · exact Or.inl ⟨_, h2, by rw [h1]⟩

end WeatherSentinel
